import Mathlib

/-!
Verification of the core of the Disaster-Response backend: the TTL cache
(`src/services/cacheService.js`), the provider gateway services
(`geminiService.js`, `mappingService.js`, `socialMediaService.js`,
`webScrapingService.js`), the geospatial radius query
(`supabase-schema.sql`, `find_nearby_resources`), and the mutation route
handlers (`disasterRoutes.js`, `reportRoutes.js`, the resource routes,
`verificationRoutes.js`).

Timestamps are modelled as integer milliseconds since the epoch,
coordinates as rationals, and the database tables as Lean lists of rows.
Each supabase/provider call site that can fail at the I/O boundary is
modelled by an explicit outcome parameter of the handler.
-/

namespace DisasterResponse

/-! ## TTL cache — `src/services/cacheService.js`

The `cache` table (`supabase-schema.sql`) has rows `{key, value, expires_at}`
with `key` as primary key; a store is a list of such rows. -/

/-- A cache table: rows `(key, value, expires_at)`; `expires_at` in ms. -/
abbrev CacheStore (α : Type) := List (String × α × Int)

/-- Model of `.select('value, expires_at').eq('key', key).single()`: the row
whose key matches, if any (keys are unique, so the first match). -/
def findRow {α : Type} : CacheStore α → String → Option (α × Int)
  | [], _ => none
  | (k', v, e) :: rs, k => if k' = k then some (v, e) else findRow rs k

/-- Model of `.delete().eq('key', key)`: removes every row with the key. -/
def deleteKey {α : Type} (s : CacheStore α) (k : String) : CacheStore α :=
  s.filter (fun r => !(r.1 == k))

/-- Model of `.upsert({key, value, expires_at}, {onConflict: 'key'})`:
replaces the row with the same key, or inserts a fresh row. -/
def upsertRow {α : Type} : CacheStore α → String → α → Int → CacheStore α
  | [], k, v, e => [(k, v, e)]
  | r :: rs, k, v, e => if r.1 = k then (k, v, e) :: rs else r :: upsertRow rs k v e

/-- `CACHE_TTL_SECONDS = 3600` from `cacheService.js`. -/
def CACHE_TTL_SECONDS : Int := 3600

/-- `getCache(key)` from `cacheService.js`: returns the stored value when the
row exists and `new Date(expires_at) > new Date()` (strictly later than now);
an expired row is deleted and `null` is returned; a missing row returns
`null`.  Result: `(returned value, cache table afterwards)`. -/
def getCache {α : Type} (now : Int) (s : CacheStore α) (k : String) :
    Option α × CacheStore α :=
  match findRow s k with
  | none => (none, s)
  | some (v, e) => if now < e then (some v, s) else (none, deleteKey s k)

/-- `setCache(key, value, ttlSeconds)` from `cacheService.js`:
`expiresAt = now + ttlSeconds * 1000`, then upsert on the key. -/
def setCache {α : Type} (now ttl : Int) (s : CacheStore α) (k : String) (v : α) :
    CacheStore α :=
  upsertRow s k v (now + ttl * 1000)

/-- Outcome of the supabase fetch inside `getCache`: rows returned (with
`.single()`, none or one — a PGRST116 "no rows" error is delivered as
`rows none`), a database error with another code, or a thrown exception. -/
inductive DbFetch (α : Type) : Type
  | rows (r : Option (α × Int))
  | dbError (code : String)
  | thrown
deriving DecidableEq

/-- Outcome of the supabase upsert inside `setCache`: success, a database
error, or a thrown exception. -/
inductive DbWrite : Type
  | ok
  | dbError (code : String)
  | thrown
deriving DecidableEq

/-- `getCache` as a function of the storage-layer outcome: the code path
`if (error && error.code !== 'PGRST116') return null` and the surrounding
`try/catch` both resolve to `null`; only a returned unexpired row yields a
value. -/
def getCacheAtBoundary {α : Type} (now : Int) : DbFetch α → Option α
  | .rows (some (v, e)) => if now < e then some v else none
  | .rows none => none
  | .dbError _ => none
  | .thrown => none

/-- `setCache` as a function of the storage-layer outcome: on an upsert
error the code only logs, and the `try/catch` absorbs exceptions, so in both
cases the cache table is left unchanged and the call returns normally. -/
def setCacheAtBoundary {α : Type} (now ttl : Int) (s : CacheStore α)
    (k : String) (v : α) : DbWrite → CacheStore α
  | .ok => setCache now ttl s k v
  | .dbError _ => s
  | .thrown => s

/-! ## Provider cache keys — the gateway services

`geminiService.js`, `mappingService.js`, `socialMediaService.js` (recovered
source part_000) and `webScrapingService.js` (part_001) each build a cache
key from the operation name and the input.  The JavaScript normalization is
`input.replace(/\s/g, '_')`: every single whitespace character is replaced
by an underscore (runs are not collapsed); `verifyImage` and
`fetchOfficialUpdates` use the raw input with no replacement. -/

/-- Characters matched by the JavaScript regex `\s` (the ASCII whitespace
characters plus the common Unicode ones: NBSP, BOM). -/
def jsWsChar (c : Char) : Bool :=
  c == ' ' || c == '\t' || c == '\n' || c == '\r' ||
  c == Char.ofNat 11 || c == Char.ofNat 12 ||
  c == Char.ofNat 160 || c == Char.ofNat 65279

/-- The per-character action of `replace(/\s/g, '_')`. -/
def normalizeWsChar (c : Char) : Char :=
  if jsWsChar c then '_' else c

/-- `input.replace(/\s/g, '_')`: map each whitespace character to `'_'`. -/
def replaceWs (s : String) : String :=
  String.mk (s.data.map normalizeWsChar)

/-- Cache key of `extractLocationFromDescription` in `geminiService.js`. -/
def geminiLocationCacheKey (description : String) : String :=
  "gemini_location_" ++ replaceWs description

/-- Cache key of `verifyImage` in `geminiService.js` (raw URL, unmodified). -/
def geminiImageVerifyCacheKey (imageUrl : String) : String :=
  "gemini_image_verify_" ++ imageUrl

/-- Cache key of `geocodeLocation` in `mappingService.js`. -/
def geocodeCacheKey (locationName : String) : String :=
  "geocode_" ++ replaceWs locationName

/-- Cache key of `fetchSocialMediaReports` (recovered source part_000). -/
def socialMediaCacheKey (disasterId query : String) : String :=
  "social_media_" ++ disasterId ++ "_" ++ replaceWs query

/-- Cache key of `fetchOfficialUpdates` (recovered source part_001; raw
source string, unmodified). -/
def officialUpdatesCacheKey (source : String) : String :=
  "official_updates_" ++ source

/-! ## Mocked providers — `geminiService.js`, `mappingService.js` -/

/-- Does `pat` occur at the head of `l`? (helper for JavaScript
`String.prototype.includes`). -/
def charListLeading : List Char → List Char → Bool
  | [], _ => true
  | _ :: _, [] => false
  | p :: ps, c :: cs => p == c && charListLeading ps cs

/-- Does `pat` occur anywhere inside `l`? -/
def charListInside (pat : List Char) : List Char → Bool
  | [] => charListLeading pat []
  | c :: cs => charListLeading pat (c :: cs) || charListInside pat cs

/-- JavaScript `s.includes(pat)`: substring containment. -/
def strIncludes (s pat : String) : Bool :=
  charListInside pat.data s.data

/-- The `{status, message}` object returned by `verifyImage`. -/
structure VerificationResult : Type where
  status : String
  message : String
deriving DecidableEq

/-- `MOCK_GEMINI_RESPONSES.verify_image_authentic`. -/
def verifyImageAuthentic : VerificationResult :=
  ⟨"verified", "Image appears authentic and relevant to disaster context."⟩

/-- `MOCK_GEMINI_RESPONSES.verify_image_manipulated`. -/
def verifyImageManipulated : VerificationResult :=
  ⟨"unverified", "Image shows signs of manipulation or is irrelevant."⟩

/-- The default verification result for unmocked image URLs. -/
def verifyImagePending : VerificationResult :=
  ⟨"pending", "Image verification in progress (mock)."⟩

/-- The branch of `verifyImage` that computes a fresh result:
`imageUrl.includes("authentic")`, then `imageUrl.includes("manipulated")`,
else the pending default. -/
def computeVerification (imageUrl : String) : VerificationResult :=
  if strIncludes imageUrl "authentic" then verifyImageAuthentic
  else if strIncludes imageUrl "manipulated" then verifyImageManipulated
  else verifyImagePending

/-- `verifyImage(imageUrl)` from `geminiService.js`: consult the cache under
`gemini_image_verify_<url>` (a cached object is always truthy, so any hit is
returned as-is); on a miss compute the mock result and store it with the
default TTL.  Result: `(verification result, cache afterwards)`. -/
def verifyImageM (now : Int) (cache : CacheStore VerificationResult)
    (imageUrl : String) : VerificationResult × CacheStore VerificationResult :=
  let key := geminiImageVerifyCacheKey imageUrl
  match getCache now cache key with
  | (some v, cache') => (v, cache')
  | (none, cache') =>
      let r := computeVerification imageUrl
      (r, setCache now CACHE_TTL_SECONDS cache' key r)

/-- A geocoding coordinate pair; either field may be absent, matching the
handler guards `typeof coords.lat === 'undefined'` /
`typeof coords.lon === 'undefined'`. -/
structure JsCoords : Type where
  lat : Option Rat
  lon : Option Rat
deriving DecidableEq

/-- The guard of the resource-creation handler:
`!coords || typeof coords.lat === 'undefined' || typeof coords.lon === 'undefined'`
fails; otherwise both coordinates are extracted. -/
def coordsUsable : Option JsCoords → Option (Rat × Rat)
  | some ⟨some la, some lo⟩ => some (la, lo)
  | _ => none

/-- The mock geocoding table of `mappingService.js`
(`MOCK_GEOCODE_RESPONSES`), with the `"Unknown Location"` fallback. -/
def mockGeocode (locationName : String) : JsCoords :=
  if locationName = "Manhattan, NYC" then ⟨some (407831/10000), some (-739712/10000)⟩
  else if locationName = "Lower East Side, NYC" then ⟨some (407145/10000), some (-739882/10000)⟩
  else if locationName = "Sendai, Japan" then ⟨some (382682/10000), some (1408694/10000)⟩
  else ⟨some 0, some 0⟩

/-! ## Geospatial model — `supabase-schema.sql`

`resources.location` is a `GEOGRAPHY(Point, 4326)` (stored lon/lat).  The
radius query `find_nearby_resources(disaster_id_param, target_point,
max_distance_meters)` filters the `resources` table with
`r.disaster_id = disaster_id_param AND ST_DWithin(r.location,
target_point::GEOGRAPHY, max_distance_meters)` and has no ORDER BY clause.
`ST_DWithin` on geography means "geodesic distance ≤ max"; the distance
function itself is a PostGIS primitive, so the query is modelled
parametrically in the distance function. -/

/-- A stored point, in the storage order of the schema (longitude,
latitude). -/
structure GeoPoint : Type where
  lon : Rat
  lat : Rat
deriving DecidableEq

/-- A row of the `resources` table. -/
structure ResourceRow : Type where
  id : Nat
  disaster_id : Nat
  name : String
  location_name : String
  location : GeoPoint
  rtype : String
  created_at : Int
deriving DecidableEq

/-- `find_nearby_resources` from `supabase-schema.sql`: the rows of the
`resources` table whose `disaster_id` matches and whose geodesic distance
from the target point (as decided by `ST_DWithin`, abstracted as `dist`) is
at most `max_distance_meters`.  The plpgsql body is a plain filtered SELECT
with no ORDER BY, so rows come back in table order. -/
def find_nearby_resources (dist : GeoPoint → GeoPoint → Rat)
    (resources : List ResourceRow) (disaster_id_param : Nat)
    (target_point : GeoPoint) (max_distance_meters : Rat) : List ResourceRow :=
  resources.filter (fun r =>
    r.disaster_id == disaster_id_param &&
    decide (dist r.location target_point ≤ max_distance_meters))

/-- Absolute value on the rationals, written out so that it evaluates by
kernel reduction. -/
def ratAbs (x : Rat) : Rat :=
  if x < 0 then -x else x

/-- Great-circle distance specialised to points on the equator: for two
points with latitude 0 and longitude difference at most 180 degrees, the
geodesic distance is the arc length along the equator, about 111195 metres
per degree of longitude.  Used to instantiate the abstract `ST_DWithin`
distance at concrete equatorial points. -/
def equatorialGeodesicDist (p q : GeoPoint) : Rat :=
  111195 * ratAbs (p.lon - q.lon)

/-! ## Record store and mutation handlers

The `disasters`, `reports` and `resources` tables, and the express route
handlers that mutate them.  Each handler returns the HTTP status it sends,
the database state afterwards, and the ordered trace of its effects: the
successful store mutation, and each `io.emit(...)` publication. -/

/-- One entry of a disaster's `audit_trail` JSONB array. -/
structure AuditEntry : Type where
  action : String
  user_id : String
  timestamp : Int
deriving DecidableEq

/-- `addAuditEntry(currentAuditTrail, action, userId)` from
`disasterRoutes.js`: append `{action, user_id, timestamp: now}`; a
non-array current trail (`Array.isArray` false, modelled as `none`) starts
a fresh one-entry trail. -/
def addAuditEntry (currentAuditTrail : Option (List AuditEntry))
    (action : String) (userId : String) (now : Int) : List AuditEntry :=
  match currentAuditTrail with
  | some trail => trail ++ [⟨action, userId, now⟩]
  | none => [⟨action, userId, now⟩]

/-- A row of the `disasters` table. -/
structure DisasterRow : Type where
  id : Nat
  title : String
  location_name : String
  description : String
  tags : List String
  owner_id : String
  created_at : Int
  audit_trail : List AuditEntry
deriving DecidableEq

/-- A row of the `reports` table. -/
structure ReportRow : Type where
  id : Nat
  disaster_id : Nat
  user_id : String
  content : String
  image_url : Option String
  verification_status : String
  created_at : Int
deriving DecidableEq

/-- The three record tables. -/
structure Store : Type where
  disasters : List DisasterRow
  reports : List ReportRow
  resources : List ResourceRow
deriving DecidableEq

/-- A socket event: the channel of `io.emit(channel, payload)` and the
`type` field of the payload, when the payload has one. -/
structure Emit : Type where
  channel : String
  etype : Option String
deriving DecidableEq

/-- One observable effect of a handler, in execution order. -/
inductive Action : Type
  | applyMutation
  | publish (e : Emit)
deriving DecidableEq

/-- Result of one handler invocation: HTTP status, store afterwards, and
the ordered effect trace. -/
structure HandlerOut : Type where
  status : Nat
  store : Store
  trace : List Action
deriving DecidableEq

/-- Model of `.find?` on the disasters table for `.eq('id', id).single()`. -/
def findDisaster (l : List DisasterRow) (id : Nat) : Option DisasterRow :=
  l.find? (fun d => d.id == id)

/-- The validation of `POST /api/disasters`:
`!title || !location_name || !description || !Array.isArray(tags) || tags.length === 0`
(an empty string is falsy; a non-array `tags` is modelled as `none`). -/
def validDisasterBody (title location_name description : String)
    (tags : Option (List String)) : Bool :=
  !(title == "") && !(location_name == "") && !(description == "") &&
  (match tags with | some (_ :: _) => true | _ => false)

/-- Handler of `POST /api/disasters` (`disasterRoutes.js`): validate, build
`audit_trail = addAuditEntry([], 'create', owner_id)`, insert, then emit
`disaster_updated {type: 'created'}`.  `insertFails` is the supabase insert
error outcome; on error the handler answers 500 with nothing inserted and
nothing emitted. -/
def createDisaster (s : Store) (now : Int) (userId : String)
    (title location_name description : String) (tags : Option (List String))
    (newId : Nat) (insertFails : Bool) : HandlerOut :=
  if !(validDisasterBody title location_name description tags) then
    ⟨400, s, []⟩
  else if insertFails then
    ⟨500, s, []⟩
  else
    let trail := addAuditEntry (some []) "create" userId now
    let row : DisasterRow :=
      ⟨newId, title, location_name, description, tags.getD [], userId, now, trail⟩
    ⟨201, { s with disasters := s.disasters ++ [row] },
      [.applyMutation, .publish ⟨"disaster_updated", some "created"⟩]⟩

/-- The field updates of `PUT /api/disasters/:id`: each truthy body field
replaces the stored one (`if (title) updatePayload.title = title`, ...),
and `audit_trail` is replaced by the freshly appended trail. -/
def applyDisasterUpdate (d : DisasterRow) (title location_name description : String)
    (tags : Option (List String)) (newTrail : List AuditEntry) : DisasterRow :=
  { d with
    title := if title == "" then d.title else title
    location_name := if location_name == "" then d.location_name else location_name
    description := if description == "" then d.description else description
    tags := match tags with | some l => l | none => d.tags
    audit_trail := newTrail }

/-- Handler of `PUT /api/disasters/:id` (`disasterRoutes.js`): reject an
empty body; fetch the existing row (404 when absent, 500 on a fetch error);
allow only an admin or the owner (403 otherwise); append an `update` audit
entry to the fetched trail, update the row, then emit
`disaster_updated {type: 'updated'}`. -/
def updateDisaster (s : Store) (now : Int) (userId : String)
    (userRoles : List String) (id : Nat)
    (title location_name description : String) (tags : Option (List String))
    (fetchFails updateFails : Bool) : HandlerOut :=
  if title == "" && location_name == "" && description == "" && tags == none then
    ⟨400, s, []⟩
  else if fetchFails then
    ⟨500, s, []⟩
  else
    match findDisaster s.disasters id with
    | none => ⟨404, s, []⟩
    | some existing =>
        if userRoles.contains "admin" || existing.owner_id == userId then
          if updateFails then
            ⟨500, s, []⟩
          else
            let newTrail := addAuditEntry (some existing.audit_trail) "update" userId now
            ⟨200,
              { s with disasters := s.disasters.map (fun d =>
                  if d.id == id then
                    applyDisasterUpdate d title location_name description tags newTrail
                  else d) },
              [.applyMutation, .publish ⟨"disaster_updated", some "updated"⟩]⟩
        else
          ⟨403, s, []⟩

/-- Handler of `DELETE /api/disasters/:id` (`disasterRoutes.js`): fetch the
existing row (404 when absent, 500 on a fetch error); allow only an admin
or the owner (403); delete the row — the schema's `ON DELETE CASCADE`
removes the disaster's reports and resources — then emit
`disaster_updated {type: 'deleted'}`. -/
def deleteDisaster (s : Store) (userId : String) (userRoles : List String)
    (id : Nat) (fetchFails deleteFails : Bool) : HandlerOut :=
  if fetchFails then
    ⟨500, s, []⟩
  else
    match findDisaster s.disasters id with
    | none => ⟨404, s, []⟩
    | some existing =>
        if userRoles.contains "admin" || existing.owner_id == userId then
          if deleteFails then
            ⟨500, s, []⟩
          else
            ⟨200,
              ⟨s.disasters.filter (fun d => !(d.id == id)),
               s.reports.filter (fun r => !(r.disaster_id == id)),
               s.resources.filter (fun r => !(r.disaster_id == id))⟩,
              [.applyMutation, .publish ⟨"disaster_updated", some "deleted"⟩]⟩
        else
          ⟨403, s, []⟩

/-- Handler of `POST /api/disasters/:disasterId/reports`
(`reportRoutes.js`): reject empty content; insert the report with
`verification_status: 'pending'` (an insert against a missing disaster
violates the foreign key and surfaces as a supabase error, 500); then emit
`report_created` (payload without a `type` field).  The parent disaster's
audit trail is not touched. -/
def createReport (s : Store) (now : Int) (userId : String) (disasterId : Nat)
    (content : String) (image_url : Option String) (newId : Nat)
    (insertFails : Bool) : HandlerOut :=
  if content == "" then
    ⟨400, s, []⟩
  else if insertFails || findDisaster s.disasters disasterId == none then
    ⟨500, s, []⟩
  else
    let row : ReportRow := ⟨newId, disasterId, userId, content, image_url, "pending", now⟩
    ⟨201, { s with reports := s.reports ++ [row] },
      [.applyMutation, .publish ⟨"report_created", none⟩]⟩

/-- Handler of `POST /api/disasters/:disasterId/resources` (the resource
routes): validate `name`, `location_name`, `type`; await
`geocodeLocation(location_name)` (outcome passed as `coords`) and reject
with 400 when no usable point came back; insert the resource with the
geocoded point (foreign-key violation on a missing disaster surfaces as a
supabase error, 500); then emit `resources_updated {type: 'created'}`.
The parent disaster's audit trail is not touched. -/
def createResource (s : Store) (now : Int) (disasterId : Nat)
    (name location_name rtype : String) (coords : Option JsCoords)
    (newId : Nat) (insertFails : Bool) : HandlerOut :=
  if name == "" || location_name == "" || rtype == "" then
    ⟨400, s, []⟩
  else
    match coordsUsable coords with
    | none => ⟨400, s, []⟩
    | some (la, lo) =>
        if insertFails || findDisaster s.disasters disasterId == none then
          ⟨500, s, []⟩
        else
          let row : ResourceRow := ⟨newId, disasterId, name, location_name, ⟨lo, la⟩, rtype, now⟩
          ⟨201, { s with resources := s.resources ++ [row] },
            [.applyMutation, .publish ⟨"resources_updated", some "created"⟩]⟩

/-- Handler of `POST /api/disasters/:disasterId/reports/:reportId/verify-image`
(`verificationRoutes.js`): reject a missing `imageUrl`; call
`verifyImage(imageUrl)` (through the cache); update
`verification_status := result.status` on the row matching both the report
id and the disaster id (500 on an update error; 404 when no row matched);
then emit `report_updated {type: 'verification_status_updated'}`.  Result:
the handler outcome and the cache afterwards. -/
def verifyReportImage (s : Store) (now : Int) (disasterId reportId : Nat)
    (imageUrl : String) (cache : CacheStore VerificationResult)
    (updateFails : Bool) : HandlerOut × CacheStore VerificationResult :=
  if imageUrl == "" then
    (⟨400, s, []⟩, cache)
  else
    let vr := verifyImageM now cache imageUrl
    if updateFails then
      (⟨500, s, []⟩, vr.2)
    else if s.reports.any (fun r => r.id == reportId && r.disaster_id == disasterId) then
      (⟨200,
        { s with reports := s.reports.map (fun r =>
            if r.id == reportId && r.disaster_id == disasterId then
              { r with verification_status := vr.1.status }
            else r) },
        [.applyMutation, .publish ⟨"report_updated", some "verification_status_updated"⟩]⟩,
       vr.2)
    else
      (⟨404, s, []⟩, vr.2)

/-! ## Helper lemmas -/

/-- After an upsert, looking the key up finds exactly the upserted row. -/
theorem findRow_upsertRow {α : Type} (s : CacheStore α) (k : String) (v : α)
    (e : Int) : findRow (upsertRow s k v e) k = some (v, e) := by
  induction s with
  | nil => simp [upsertRow, findRow]
  | cons r rs ih =>
      by_cases h : r.1 = k
      · simp [upsertRow, h, findRow]
      · simp [upsertRow, h, findRow, ih]

/-! ## Claim theorems -/

/-- C4: for a stored cache row `(v, e)` under key `k`, a `getCache` whose
current time is strictly before `e` returns `v` unchanged, and a `getCache`
whose current time is at or past `e` returns a miss (`none`), never the
expired value. -/
theorem getCache_expiry {α : Type} (s : CacheStore α) (k : String) (v : α)
    (e now : Int) (hrow : findRow s k = some (v, e)) :
    (now < e → (getCache now s k).1 = some v) ∧
    (e ≤ now → (getCache now s k).1 = none) := by
  refine ⟨fun h => ?_, fun h => ?_⟩
  · simp [getCache, hrow, h]
  · simp [getCache, hrow, if_neg (not_lt.mpr h)]

/-- Witness for C4: on the one-row store `[("k", 42, 10)]`, reading at time
5 yields the value and reading at time 10 yields a miss. -/
theorem getCache_expiry_witness :
    (getCache 5 [("k", (42 : Nat), 10)] "k").1 = some 42 ∧
    (getCache 10 [("k", (42 : Nat), 10)] "k").1 = none :=
  ⟨(getCache_expiry [("k", (42 : Nat), 10)] "k" 42 10 5 (by decide)).1 (by decide),
   (getCache_expiry [("k", (42 : Nat), 10)] "k" 42 10 10 (by decide)).2 (by decide)⟩

/-- C8: two `setCache` calls on the same key leave only the second value
retrievable before its expiry — the second `set` fully overwrites the
first entry, the values are never merged. -/
theorem setCache_overwrites {α : Type} (s : CacheStore α) (k : String)
    (v1 v2 : α) (n1 t1 n2 t2 n3 : Int) (h : n3 < n2 + t2 * 1000) :
    (getCache n3 (setCache n2 t2 (setCache n1 t1 s k v1) k v2) k).1 = some v2 := by
  simp [setCache, getCache, findRow_upsertRow, h]

/-- Witness for C8: writing 1 then 2 under `"k"` at time 0 with the default
TTL and reading at time 5 yields 2. -/
theorem setCache_overwrites_witness :
    (getCache 5 (setCache 0 3600 (setCache 0 3600 [] "k" (1 : Nat)) "k" 2) "k").1 = some 2 :=
  setCache_overwrites [] "k" 1 2 0 3600 0 3600 5 (by decide)

/-- C10: `getCache` and `setCache` absorb every storage-layer failure:
a database error or a thrown exception makes `getCache` return `none`
(indistinguishable from a miss) and makes `setCache` return normally with
the cache table unchanged, so no cache failure propagates to the caller. -/
theorem cache_absorbs_errors {α : Type} (now ttl : Int) (s : CacheStore α)
    (k : String) (v : α) (code : String) :
    getCacheAtBoundary now (DbFetch.dbError code : DbFetch α) = none ∧
    getCacheAtBoundary now (DbFetch.thrown : DbFetch α) = none ∧
    setCacheAtBoundary now ttl s k v (DbWrite.dbError code) = s ∧
    setCacheAtBoundary now ttl s k v DbWrite.thrown = s :=
  ⟨rfl, rfl, rfl, rfl⟩

/-- Counterexample to C7: the key normalization does not collapse runs of
whitespace — `"a b"` and `"a  b"` differ only in a whitespace run, yet
their geocoding cache keys differ. -/
theorem cacheKey_ws_counterexample :
    geocodeCacheKey "a b" ≠ geocodeCacheKey "a  b" := by
  decide

/-- C7 (amended): each provider cache key is a deterministic function of
the operation name and the input; the location-extraction, geocoding and
social-media keys replace every single whitespace character of the input
with an underscore, preserving case and run lengths (two keys agree exactly
when the inputs agree character by character after that replacement, and
the replacement preserves length, so inputs differing only in the length of
a whitespace run get different keys); the image-verification and
official-update keys use the raw input unmodified. -/
theorem cacheKey_normalization_amended :
    (∀ s t : String, geminiLocationCacheKey s = geminiLocationCacheKey t ↔
        s.data.map normalizeWsChar = t.data.map normalizeWsChar) ∧
    (∀ s t : String, geocodeCacheKey s = geocodeCacheKey t ↔
        s.data.map normalizeWsChar = t.data.map normalizeWsChar) ∧
    (∀ d s t : String, socialMediaCacheKey d s = socialMediaCacheKey d t ↔
        s.data.map normalizeWsChar = t.data.map normalizeWsChar) ∧
    (∀ s t : String, geminiImageVerifyCacheKey s = geminiImageVerifyCacheKey t ↔ s = t) ∧
    (∀ s t : String, officialUpdatesCacheKey s = officialUpdatesCacheKey t ↔ s = t) ∧
    (∀ s : String, (replaceWs s).length = s.length) := by
  refine ⟨fun s t => ?_, fun s t => ?_, fun d s t => ?_, fun s t => ?_, fun s t => ?_, fun s => ?_⟩
  · simp only [geminiLocationCacheKey, replaceWs, String.ext_iff, String.data_append]
    exact ⟨fun h => List.append_cancel_left h, fun h => by rw [h]⟩
  · simp only [geocodeCacheKey, replaceWs, String.ext_iff, String.data_append]
    exact ⟨fun h => List.append_cancel_left h, fun h => by rw [h]⟩
  · simp only [socialMediaCacheKey, replaceWs, String.ext_iff, String.data_append,
      List.append_assoc]
    exact ⟨fun h => List.append_cancel_left
      (List.append_cancel_left (List.append_cancel_left h)), fun h => by rw [h]⟩
  · simp only [geminiImageVerifyCacheKey, String.ext_iff, String.data_append]
    exact ⟨fun h => List.append_cancel_left h, fun h => by rw [h]⟩
  · simp only [officialUpdatesCacheKey, String.ext_iff, String.data_append]
    exact ⟨fun h => List.append_cancel_left h, fun h => by rw [h]⟩
  · simp only [replaceWs, String.length_mk, List.length_map]
    rfl

/-- A 300 km-distant equatorial shelter, inserted into the table first. -/
def resourceFar : ResourceRow :=
  ⟨1, 1, "Shelter A", "far east", ⟨2, 0⟩, "shelter", 200⟩

/-- A 111 km-distant equatorial shelter, inserted into the table second
(and created later than `resourceFar`). -/
def resourceNear : ResourceRow :=
  ⟨2, 1, "Shelter B", "near east", ⟨1, 0⟩, "shelter", 300⟩

/-- Counterexample to C2: with the resources table holding the farther
resource before the nearer one, `find_nearby_resources` (which has no
ORDER BY) returns them in table order — the nearer resource second — so
the result is not sorted ascending by geodesic distance from the center. -/
theorem radius_query_order_counterexample :
    find_nearby_resources equatorialGeodesicDist [resourceFar, resourceNear] 1
        ⟨0, 0⟩ 300000 = [resourceFar, resourceNear] ∧
    equatorialGeodesicDist resourceNear.location ⟨0, 0⟩ <
      equatorialGeodesicDist resourceFar.location ⟨0, 0⟩ := by
  constructor
  · norm_num [find_nearby_resources, List.filter, resourceFar, resourceNear,
      equatorialGeodesicDist, ratAbs]
  · norm_num [equatorialGeodesicDist, resourceFar, resourceNear, ratAbs]

/-- C2 (amended): for every distance function (the `ST_DWithin` geodesic
distance being a PostGIS primitive), disaster, center and radius R > 0, the
radius query returns exactly those of the disaster's resources whose
distance from the center is at most R, in the order the rows appear in the
resources table (no distance sorting, no creation-time tie-breaking). -/
theorem radius_query_amended (dist : GeoPoint → GeoPoint → Rat)
    (resources : List ResourceRow) (dpid : Nat) (target : GeoPoint)
    (R : Rat) (hR : 0 < R) :
    (∀ r, r ∈ find_nearby_resources dist resources dpid target R ↔
        r ∈ resources ∧ r.disaster_id = dpid ∧ dist r.location target ≤ R) ∧
    (find_nearby_resources dist resources dpid target R).Sublist resources := by
  refine ⟨fun r => ?_, List.filter_sublist _⟩
  simp [find_nearby_resources, List.mem_filter, and_assoc]

/-- Witness for C2 (amended): at radius 300000 > 0, the two-row table from
the counterexample yields membership of the nearer resource and the
output is a sublist of the table. -/
theorem radius_query_amended_witness :
    (0 : Rat) < 300000 ∧
    (resourceNear ∈ find_nearby_resources equatorialGeodesicDist
        [resourceFar, resourceNear] 1 ⟨0, 0⟩ 300000 ↔
      resourceNear ∈ [resourceFar, resourceNear] ∧ resourceNear.disaster_id = 1 ∧
        equatorialGeodesicDist resourceNear.location ⟨0, 0⟩ ≤ 300000) ∧
    (find_nearby_resources equatorialGeodesicDist [resourceFar, resourceNear] 1
        ⟨0, 0⟩ 300000).Sublist [resourceFar, resourceNear] :=
  ⟨by norm_num,
   (radius_query_amended equatorialGeodesicDist [resourceFar, resourceNear] 1
      ⟨0, 0⟩ 300000 (by norm_num)).1 resourceNear,
   (radius_query_amended equatorialGeodesicDist [resourceFar, resourceNear] 1
      ⟨0, 0⟩ 300000 (by norm_num)).2⟩

/-- C3: a createResource request whose location name does not geocode to a
usable point fails with a validation error (400) and has no side effect —
the store is unchanged, nothing is inserted, nothing emitted — and a
resource row is persisted only together with a successfully geocoded
point. -/
theorem resource_requires_geocode :
    (∀ s now did n l ty co nid dbf, coordsUsable co = none →
        (createResource s now did n l ty co nid dbf).status = 400 ∧
        (createResource s now did n l ty co nid dbf).store = s ∧
        (createResource s now did n l ty co nid dbf).trace = []) ∧
    (∀ s now did n l ty co nid dbf,
        ∀ r ∈ (createResource s now did n l ty co nid dbf).store.resources,
          r ∈ s.resources ∨
            ∃ la lo, coordsUsable co = some (la, lo) ∧ r.location = ⟨lo, la⟩) := by
  constructor
  · intro s now did n l ty co nid dbf hco
    unfold createResource
    split
    · exact ⟨rfl, rfl, rfl⟩
    · rw [hco]
      exact ⟨rfl, rfl, rfl⟩
  · intro s now did n l ty co nid dbf r hr
    unfold createResource at hr
    split at hr
    · exact Or.inl hr
    · split at hr
      · exact Or.inl hr
      · split at hr
        · exact Or.inl hr
        · rename_i la' lo' hco' _
          simp only [List.mem_append, List.mem_singleton] at hr
          rcases hr with hr | hr
          · exact Or.inl hr
          · exact Or.inr ⟨la', lo', hco', by rw [hr]⟩

/-- Witness for C3: a geocode outcome with an absent latitude makes the
concrete createResource call answer 400 and leave the empty store
unchanged. -/
theorem resource_requires_geocode_witness :
    coordsUsable (some ⟨none, some 0⟩) = none ∧
    (createResource ⟨[], [], []⟩ 0 1 "Red Cross Shelter" "Nowhere" "shelter"
        (some ⟨none, some 0⟩) 1 false).status = 400 ∧
    (createResource ⟨[], [], []⟩ 0 1 "Red Cross Shelter" "Nowhere" "shelter"
        (some ⟨none, some 0⟩) 1 false).store = ⟨[], [], []⟩ :=
  ⟨by decide,
   (resource_requires_geocode.1 ⟨[], [], []⟩ 0 1 "Red Cross Shelter" "Nowhere"
      "shelter" (some ⟨none, some 0⟩) 1 false (by decide)).1,
   (resource_requires_geocode.1 ⟨[], [], []⟩ 0 1 "Red Cross Shelter" "Nowhere"
      "shelter" (some ⟨none, some 0⟩) 1 false (by decide)).2.1⟩

/-- A store with one disaster (empty audit trail) and no reports or
resources. -/
def oneDisasterStore : Store :=
  ⟨[⟨1, "NYC Flood", "Manhattan, NYC", "Flooding in Manhattan", ["flood"],
      "netrunnerX", 0, []⟩], [], []⟩

/-- Counterexample to C1: creating a child report of disaster 1 succeeds
(status 201), yet the parent disaster's audit trail afterwards is exactly
the old trail — length 0, not old length plus one — because the report
handler never touches the disaster row. -/
theorem reportCreate_parent_trail_counterexample :
    (createReport oneDisasterStore 5 "citizen1" 1 "Need food and water" none 10
        false).status = 201 ∧
    (createReport oneDisasterStore 5 "citizen1" 1 "Need food and water" none 10
        false).store.disasters.map (fun d => d.audit_trail.length) = [0] := by
  constructor
  · rfl
  · rfl

/-- C1 (amended): a direct disaster create appends exactly the single
entry `{action: "create", user_id, timestamp}` to the fresh empty trail
and leaves every other disaster row (and trail) untouched; a direct
disaster update appends exactly one `{action: "update", user_id,
timestamp}` entry to the fetched trail, preserving all existing entries
as a prefix, and leaves the other rows untouched; creating a child report
or child resource leaves every disaster row — in particular every audit
trail — completely unchanged. -/
theorem audit_append_amended :
    (∀ s now u t l d tg nid, validDisasterBody t l d tg = true →
        (createDisaster s now u t l d tg nid false).store.disasters =
          s.disasters ++ [⟨nid, t, l, d, tg.getD [], u, now, [⟨"create", u, now⟩]⟩]) ∧
    (∀ s now u roles id t l d tg ex,
        findDisaster s.disasters id = some ex →
        (roles.contains "admin" || ex.owner_id == u) = true →
        (t == "" && l == "" && d == "" && tg == none) = false →
        (updateDisaster s now u roles id t l d tg false false).status = 200 ∧
        ∀ dd ∈ (updateDisaster s now u roles id t l d tg false false).store.disasters,
          (dd.id ≠ id → dd ∈ s.disasters) ∧
          (dd.id = id → dd.audit_trail = ex.audit_trail ++ [⟨"update", u, now⟩])) ∧
    (∀ s now u did c iu nid dbf,
        (createReport s now u did c iu nid dbf).store.disasters = s.disasters) ∧
    (∀ s now did n l ty co nid dbf,
        (createResource s now did n l ty co nid dbf).store.disasters = s.disasters) := by
  refine ⟨?_, ?_, ?_, ?_⟩
  · intro s now u t l d tg nid hv
    simp [createDisaster, hv, addAuditEntry]
  · intro s now u roles id t l d tg ex hex hauth hbody
    have main :
        (updateDisaster s now u roles id t l d tg false false) =
          ⟨200,
            { s with disasters := s.disasters.map (fun dd =>
                if dd.id == id then
                  applyDisasterUpdate dd t l d tg
                    (addAuditEntry (some ex.audit_trail) "update" u now)
                else dd) },
            [.applyMutation, .publish ⟨"disaster_updated", some "updated"⟩]⟩ := by
      unfold updateDisaster
      simp only [hbody, hex, Bool.false_eq_true, ite_false]
      rw [if_pos hauth]
    rw [main]
    refine ⟨rfl, ?_⟩
    intro dd hdd
    simp only [List.mem_map] at hdd
    obtain ⟨d0, hd0, hmap⟩ := hdd
    by_cases hid : d0.id = id
    · rw [if_pos (by simp [hid])] at hmap
      constructor
      · intro hne
        exact absurd (by rw [← hmap]; exact hid) hne
      · intro _
        rw [← hmap]
        simp [applyDisasterUpdate, addAuditEntry]
    · rw [if_neg (by simp [hid])] at hmap
      constructor
      · intro _
        rw [← hmap]; exact hd0
      · intro heq
        exact absurd (by rw [← hmap] at heq; exact heq) hid
  · intro s now u did c iu nid dbf
    unfold createReport
    split
    · rfl
    · split
      · rfl
      · rfl
  · intro s now did n l ty co nid dbf
    unfold createResource
    split
    · rfl
    · split
      · rfl
      · split
        · rfl
        · rfl

/-- Witness for C1 (amended): concrete create, update, report-create and
resource-create calls on the one-disaster store exhibit each conjunct. -/
theorem audit_append_amended_witness :
    ((createDisaster ⟨[], [], []⟩ 7 "netrunnerX" "NYC Flood" "Manhattan, NYC"
        "desc" (some ["flood"]) 1 false).store.disasters =
      [⟨1, "NYC Flood", "Manhattan, NYC", "desc", ["flood"], "netrunnerX", 7,
        [⟨"create", "netrunnerX", 7⟩]⟩]) ∧
    ((updateDisaster oneDisasterStore 9 "netrunnerX" ["admin"] 1 ""
        "" "Worsening flood" none false false).status = 200) ∧
    ((createReport oneDisasterStore 5 "citizen1" 1 "Need help" none 10
        false).store.disasters = oneDisasterStore.disasters) ∧
    ((createResource oneDisasterStore 6 1 "Shelter" "Lower East Side, NYC"
        "shelter" (some ⟨some 0, some 0⟩) 11 false).store.disasters =
      oneDisasterStore.disasters) :=
  ⟨audit_append_amended.1 ⟨[], [], []⟩ 7 "netrunnerX" "NYC Flood"
      "Manhattan, NYC" "desc" (some ["flood"]) 1 (by decide),
   (audit_append_amended.2.1 oneDisasterStore 9 "netrunnerX" ["admin"] 1 ""
      "" "Worsening flood" none
      ⟨1, "NYC Flood", "Manhattan, NYC", "Flooding in Manhattan", ["flood"],
        "netrunnerX", 0, []⟩ (by decide) (by decide) (by decide)).1,
   audit_append_amended.2.2.1 oneDisasterStore 5 "citizen1" 1 "Need help" none
      10 false,
   audit_append_amended.2.2.2 oneDisasterStore 6 1 "Shelter"
      "Lower East Side, NYC" "shelter" (some ⟨some 0, some 0⟩) 11 false⟩

/-- Do these handlers report success (they answer 200 or 201)? -/
def isSuccess (n : Nat) : Bool :=
  n == 200 || n == 201

/-- C6: each mutation handler publishes exactly one event per successful
mutation, and the publication comes after the store mutation in the
handler's effect trace; every failing invocation (validation error,
authorization denial, not-found, or store error) publishes nothing. -/
theorem publish_once_after_mutation :
    (∀ s now u t l d tg nid dbf,
        (isSuccess (createDisaster s now u t l d tg nid dbf).status = true ∧
          (createDisaster s now u t l d tg nid dbf).trace =
            [.applyMutation, .publish ⟨"disaster_updated", some "created"⟩]) ∨
        (isSuccess (createDisaster s now u t l d tg nid dbf).status = false ∧
          (createDisaster s now u t l d tg nid dbf).trace = [])) ∧
    (∀ s now u roles id t l d tg ff uf,
        (isSuccess (updateDisaster s now u roles id t l d tg ff uf).status = true ∧
          (updateDisaster s now u roles id t l d tg ff uf).trace =
            [.applyMutation, .publish ⟨"disaster_updated", some "updated"⟩]) ∨
        (isSuccess (updateDisaster s now u roles id t l d tg ff uf).status = false ∧
          (updateDisaster s now u roles id t l d tg ff uf).trace = [])) ∧
    (∀ s u roles id ff df,
        (isSuccess (deleteDisaster s u roles id ff df).status = true ∧
          (deleteDisaster s u roles id ff df).trace =
            [.applyMutation, .publish ⟨"disaster_updated", some "deleted"⟩]) ∨
        (isSuccess (deleteDisaster s u roles id ff df).status = false ∧
          (deleteDisaster s u roles id ff df).trace = [])) ∧
    (∀ s now u did c iu nid dbf,
        (isSuccess (createReport s now u did c iu nid dbf).status = true ∧
          (createReport s now u did c iu nid dbf).trace =
            [.applyMutation, .publish ⟨"report_created", none⟩]) ∨
        (isSuccess (createReport s now u did c iu nid dbf).status = false ∧
          (createReport s now u did c iu nid dbf).trace = [])) ∧
    (∀ s now did n l ty co nid dbf,
        (isSuccess (createResource s now did n l ty co nid dbf).status = true ∧
          (createResource s now did n l ty co nid dbf).trace =
            [.applyMutation, .publish ⟨"resources_updated", some "created"⟩]) ∨
        (isSuccess (createResource s now did n l ty co nid dbf).status = false ∧
          (createResource s now did n l ty co nid dbf).trace = [])) ∧
    (∀ s now did rid url cache uf,
        (isSuccess (verifyReportImage s now did rid url cache uf).1.status = true ∧
          (verifyReportImage s now did rid url cache uf).1.trace =
            [.applyMutation, .publish ⟨"report_updated", some "verification_status_updated"⟩]) ∨
        (isSuccess (verifyReportImage s now did rid url cache uf).1.status = false ∧
          (verifyReportImage s now did rid url cache uf).1.trace = [])) := by
  refine ⟨?_, ?_, ?_, ?_, ?_, ?_⟩
  · intro s now u t l d tg nid dbf
    unfold createDisaster
    split
    · exact Or.inr ⟨rfl, rfl⟩
    · split
      · exact Or.inr ⟨rfl, rfl⟩
      · exact Or.inl ⟨rfl, rfl⟩
  · intro s now u roles id t l d tg ff uf
    unfold updateDisaster
    split
    · exact Or.inr ⟨rfl, rfl⟩
    · split
      · exact Or.inr ⟨rfl, rfl⟩
      · split
        · exact Or.inr ⟨rfl, rfl⟩
        · split
          · split
            · exact Or.inr ⟨rfl, rfl⟩
            · exact Or.inl ⟨rfl, rfl⟩
          · exact Or.inr ⟨rfl, rfl⟩
  · intro s u roles id ff df
    unfold deleteDisaster
    split
    · exact Or.inr ⟨rfl, rfl⟩
    · split
      · exact Or.inr ⟨rfl, rfl⟩
      · split
        · split
          · exact Or.inr ⟨rfl, rfl⟩
          · exact Or.inl ⟨rfl, rfl⟩
        · exact Or.inr ⟨rfl, rfl⟩
  · intro s now u did c iu nid dbf
    unfold createReport
    split
    · exact Or.inr ⟨rfl, rfl⟩
    · split
      · exact Or.inr ⟨rfl, rfl⟩
      · exact Or.inl ⟨rfl, rfl⟩
  · intro s now did n l ty co nid dbf
    unfold createResource
    split
    · exact Or.inr ⟨rfl, rfl⟩
    · split
      · exact Or.inr ⟨rfl, rfl⟩
      · split
        · exact Or.inr ⟨rfl, rfl⟩
        · exact Or.inl ⟨rfl, rfl⟩
  · intro s now did rid url cache uf
    unfold verifyReportImage
    split
    · exact Or.inr ⟨rfl, rfl⟩
    · split
      · exact Or.inr ⟨rfl, rfl⟩
      · split
        · exact Or.inl ⟨rfl, rfl⟩
        · exact Or.inr ⟨rfl, rfl⟩

/-- C5: a report's verification status changes only through a completed
verify-image call: a completed call on an existing report stores exactly
that call's outcome — re-running the transition from whatever the current
status is, with no restriction to `pending` — and every other modelled
mutation leaves every stored report's status unchanged (reports are only
ever created with status `pending`, or deleted by a cascade), so a
terminal status never changes without a new call. -/
theorem verification_status_follows_calls :
    (∀ s now cache did rid url (r : ReportRow), r ∈ s.reports → r.id = rid →
        r.disaster_id = did → url ≠ "" →
        (verifyReportImage s now did rid url cache false).1.status = 200 ∧
        (∃ r' ∈ (verifyReportImage s now did rid url cache false).1.store.reports,
            r'.id = rid ∧ r'.disaster_id = did ∧
            r'.verification_status = (verifyImageM now cache url).1.status) ∧
        (∀ r' ∈ (verifyReportImage s now did rid url cache false).1.store.reports,
            r'.id = rid → r'.disaster_id = did →
            r'.verification_status = (verifyImageM now cache url).1.status)) ∧
    (∀ s now cache did rid url uf,
        ∀ r' ∈ (verifyReportImage s now did rid url cache uf).1.store.reports,
          r' ∈ s.reports ∨
            (r'.id = rid ∧ r'.disaster_id = did ∧
              r'.verification_status = (verifyImageM now cache url).1.status)) ∧
    (∀ s now u t l d tg nid dbf,
        (createDisaster s now u t l d tg nid dbf).store.reports = s.reports) ∧
    (∀ s now u roles id t l d tg ff uf,
        (updateDisaster s now u roles id t l d tg ff uf).store.reports = s.reports) ∧
    (∀ s u roles id ff df,
        ∀ r' ∈ (deleteDisaster s u roles id ff df).store.reports, r' ∈ s.reports) ∧
    (∀ s now u did c iu nid dbf,
        ∀ r' ∈ (createReport s now u did c iu nid dbf).store.reports,
          r' ∈ s.reports ∨ r'.verification_status = "pending") ∧
    (∀ s now did n l ty co nid dbf,
        (createResource s now did n l ty co nid dbf).store.reports = s.reports) := by
  refine ⟨?_, ?_, ?_, ?_, ?_, ?_, ?_⟩
  · intro s now cache did rid url r hr hid hdid hurl
    have hurl' : (url == "") = false := by
      simp [hurl]
    have ha : s.reports.any
        (fun r0 => r0.id == rid && r0.disaster_id == did) = true :=
      List.any_eq_true.mpr ⟨r, hr, by simp [hid, hdid]⟩
    have main :
        verifyReportImage s now did rid url cache false =
          (⟨200,
            { s with reports := s.reports.map (fun r0 =>
                if r0.id == rid && r0.disaster_id == did then
                  { r0 with verification_status := (verifyImageM now cache url).1.status }
                else r0) },
            [.applyMutation,
             .publish ⟨"report_updated", some "verification_status_updated"⟩]⟩,
           (verifyImageM now cache url).2) := by
      unfold verifyReportImage
      simp only [hurl', Bool.false_eq_true, ite_false, ha, ite_true]
    rw [main]
    refine ⟨rfl, ?_, ?_⟩
    · refine ⟨{ r with verification_status := (verifyImageM now cache url).1.status },
        List.mem_map.mpr ⟨r, hr, by simp [hid, hdid]⟩, by simp [hid], by simp [hdid], rfl⟩
    · intro r' hr' hrid hrdid
      simp only [List.mem_map] at hr'
      obtain ⟨x, hx, hfx⟩ := hr'
      by_cases hc : (x.id == rid && x.disaster_id == did) = true
      · rw [if_pos hc] at hfx
        rw [← hfx]
      · rw [if_neg hc] at hfx
        subst hfx
        exact absurd (by simp [hrid, hrdid]) hc
  · intro s now cache did rid url uf r' hr'
    unfold verifyReportImage at hr'
    split at hr'
    · exact Or.inl hr'
    · split at hr'
      · exact Or.inl hr'
      · split at hr'
        · simp only [List.mem_map] at hr'
          obtain ⟨x, hx, hfx⟩ := hr'
          by_cases hc : (x.id == rid && x.disaster_id == did) = true
          · rw [if_pos hc] at hfx
            simp only [Bool.and_eq_true, beq_iff_eq] at hc
            exact Or.inr ⟨by rw [← hfx]; exact hc.1, by rw [← hfx]; exact hc.2,
              by rw [← hfx]⟩
          · rw [if_neg hc] at hfx
            rw [← hfx]
            exact Or.inl hx
        · exact Or.inl hr'
  · intro s now u t l d tg nid dbf
    unfold createDisaster
    split
    · rfl
    · split
      · rfl
      · rfl
  · intro s now u roles id t l d tg ff uf
    unfold updateDisaster
    split
    · rfl
    · split
      · rfl
      · split
        · rfl
        · split
          · split
            · rfl
            · rfl
          · rfl
  · intro s u roles id ff df r' hr'
    unfold deleteDisaster at hr'
    split at hr'
    · exact hr'
    · split at hr'
      · exact hr'
      · split at hr'
        · split at hr'
          · exact hr'
          · exact List.mem_of_mem_filter hr'
        · exact hr'
  · intro s now u did c iu nid dbf r' hr'
    unfold createReport at hr'
    split at hr'
    · exact Or.inl hr'
    · split at hr'
      · exact Or.inl hr'
      · simp only [List.mem_append, List.mem_singleton] at hr'
        rcases hr' with hr' | hr'
        · exact Or.inl hr'
        · exact Or.inr (by rw [hr'])
  · intro s now did n l ty co nid dbf
    unfold createResource
    split
    · rfl
    · split
      · rfl
      · split
        · rfl
        · rfl

/-- Witness for C5: on a store holding one report whose status is already
terminal (`verified`), a concrete verify-image call on an ungeocodable
URL completes with 200 and stores that call's outcome. -/
theorem verification_status_follows_calls_witness :
    (⟨10, 1, "citizen1", "c", some "http://x/img.jpg", "verified", 0⟩ : ReportRow) ∈
      (⟨[], [⟨10, 1, "citizen1", "c", some "http://x/img.jpg", "verified", 0⟩], []⟩ : Store).reports ∧
    (verifyReportImage ⟨[], [⟨10, 1, "citizen1", "c", some "http://x/img.jpg", "verified", 0⟩], []⟩
        3 1 10 "http://x/img.jpg" [] false).1.status = 200 ∧
    (∃ r' ∈ (verifyReportImage ⟨[], [⟨10, 1, "citizen1", "c", some "http://x/img.jpg", "verified", 0⟩], []⟩
        3 1 10 "http://x/img.jpg" [] false).1.store.reports,
      r'.id = 10 ∧ r'.disaster_id = 1 ∧
        r'.verification_status = (verifyImageM 3 [] "http://x/img.jpg").1.status) :=
  ⟨List.mem_singleton.mpr rfl,
   (verification_status_follows_calls.1
      ⟨[], [⟨10, 1, "citizen1", "c", some "http://x/img.jpg", "verified", 0⟩], []⟩
      3 [] 1 10 "http://x/img.jpg"
      ⟨10, 1, "citizen1", "c", some "http://x/img.jpg", "verified", 0⟩
      (List.mem_singleton.mpr rfl) rfl rfl (by decide)).1,
   (verification_status_follows_calls.1
      ⟨[], [⟨10, 1, "citizen1", "c", some "http://x/img.jpg", "verified", 0⟩], []⟩
      3 [] 1 10 "http://x/img.jpg"
      ⟨10, 1, "citizen1", "c", some "http://x/img.jpg", "verified", 0⟩
      (List.mem_singleton.mpr rfl) rfl rfl (by decide)).2.1⟩

/-- C9: for an image URL containing neither "authentic" nor "manipulated",
`verifyImage` returns the pending result (the cache-coherence hypothesis
says any cached row under the URL's key holds the mock result computed for
that URL, which is what the only writer of such keys stores), and a
verify-image call on any existing report then overwrites its
verification status with "pending" regardless of the prior value. -/
theorem verifyImage_default_pending
    (now : Int) (cache : CacheStore VerificationResult) (url : String)
    (h1 : strIncludes url "authentic" = false)
    (h2 : strIncludes url "manipulated" = false)
    (hcoh : ∀ v e, findRow cache (geminiImageVerifyCacheKey url) = some (v, e) →
        v = computeVerification url) :
    (verifyImageM now cache url).1 = verifyImagePending ∧
    (∀ s did rid (r : ReportRow), r ∈ s.reports → r.id = rid →
        r.disaster_id = did → url ≠ "" →
        ∃ r' ∈ (verifyReportImage s now did rid url cache false).1.store.reports,
          r'.id = rid ∧ r'.verification_status = "pending") := by
  have hcomp : computeVerification url = verifyImagePending := by
    simp [computeVerification, h1, h2]
  have hfirst : (verifyImageM now cache url).1 = verifyImagePending := by
    unfold verifyImageM getCache
    cases hrow : findRow cache (geminiImageVerifyCacheKey url) with
    | none => simp [hrow, hcomp]
    | some ve =>
        obtain ⟨v, e⟩ := ve
        have hv : v = computeVerification url := hcoh v e hrow
        by_cases ht : now < e
        · simp [hrow, ht, hv, hcomp]
        · simp [hrow, ht, hcomp]
  refine ⟨hfirst, ?_⟩
  intro s did rid r hr hid hdid hurl
  have hurl' : (url == "") = false := by
    simp [hurl]
  have ha : s.reports.any
      (fun r0 => r0.id == rid && r0.disaster_id == did) = true :=
    List.any_eq_true.mpr ⟨r, hr, by simp [hid, hdid]⟩
  have main :
      verifyReportImage s now did rid url cache false =
        (⟨200,
          { s with reports := s.reports.map (fun r0 =>
              if r0.id == rid && r0.disaster_id == did then
                { r0 with verification_status := (verifyImageM now cache url).1.status }
              else r0) },
          [.applyMutation,
           .publish ⟨"report_updated", some "verification_status_updated"⟩]⟩,
         (verifyImageM now cache url).2) := by
    unfold verifyReportImage
    simp only [hurl', Bool.false_eq_true, ite_false, ha, ite_true]
  rw [main]
  refine ⟨{ r with verification_status := (verifyImageM now cache url).1.status },
    List.mem_map.mpr ⟨r, hr, by simp [hid, hdid]⟩, by simp [hid], ?_⟩
  show (verifyImageM now cache url).1.status = "pending"
  rw [hfirst]
  rfl

/-- Witness for C9: the URL "http://x/img.jpg" contains neither marker, the
empty cache is trivially coherent, and the call yields the pending
result. -/
theorem verifyImage_default_pending_witness :
    strIncludes "http://x/img.jpg" "authentic" = false ∧
    strIncludes "http://x/img.jpg" "manipulated" = false ∧
    (verifyImageM 3 [] "http://x/img.jpg").1 = verifyImagePending :=
  ⟨by decide, by decide,
   (verifyImage_default_pending 3 [] "http://x/img.jpg" (by decide) (by decide)
      (fun v e h => by simp [findRow] at h)).1⟩

end DisasterResponse
